import Mathlib

/-!
Shallow embedding of `src/FactoryOps/Manufacturing_Science/littleslaw/Py00001.py`,
the `LittlesLaw` class: a shared input validator plus seven pure formula
operations. Python numeric values are modelled exactly (ints as `ℤ`, floats as
`ℚ` — every concrete value appearing in the spec is exactly representable),
`bool` is a subclass of `int` as in Python, and raised exceptions are modelled
as structured `PyError` values carrying exactly the data interpolated into the
corresponding Python f-string message.
-/

/-- A Python value as far as this module can observe it: an `int`, a `float`,
a `bool` (which in Python is a subclass of `int`), or some non-numeric value
(modelled by its string form; only its type name matters here). -/
inductive PyVal where
  | int (n : ℤ)
  | float (q : ℚ)
  | bool (b : Bool)
  | str (s : String)
deriving DecidableEq, Repr

/-- Python `isinstance(value, (int, float))`: true for `int`, `float` and
`bool` (a subclass of `int`), false for non-numeric values. -/
def PyVal.isNumeric : PyVal → Bool
  | .int _ => true
  | .float _ => true
  | .bool _ => true
  | .str _ => false

/-- Python `isinstance(value, int)`: true for `int` and `bool`. -/
def PyVal.isInstInt : PyVal → Bool
  | .int _ => true
  | .bool _ => true
  | .float _ => false
  | .str _ => false

/-- Whether the value is a Python `float`. -/
def PyVal.isFloat : PyVal → Bool
  | .float _ => true
  | _ => false

/-- The numeric content of a value, as an exact rational (`True = 1`,
`False = 0`; non-numeric values never reach arithmetic after validation). -/
def PyVal.toRat : PyVal → ℚ
  | .int n => (n : ℚ)
  | .float q => q
  | .bool b => if b then 1 else 0
  | .str _ => 0

/-- The integer content of an `int` or `bool` value. -/
def PyVal.toInt : PyVal → ℤ
  | .int n => n
  | .bool b => if b then 1 else 0
  | .float _ => 0
  | .str _ => 0

/-- Python `type(value).__name__`. -/
def PyVal.typeName : PyVal → String
  | .int _ => "int"
  | .float _ => "float"
  | .bool _ => "bool"
  | .str _ => "str"

/-- Python `a * b` on numeric operands: a `float` if either operand is a
`float`, otherwise an `int` (`bool` operands are promoted to `int`). -/
def PyVal.mul (a b : PyVal) : PyVal :=
  if a.isFloat || b.isFloat then .float (a.toRat * b.toRat)
  else .int (a.toInt * b.toInt)

/-- Python `a + b` on numeric operands, with the same type promotion as
multiplication. -/
def PyVal.add (a b : PyVal) : PyVal :=
  if a.isFloat || b.isFloat then .float (a.toRat + b.toRat)
  else .int (a.toInt + b.toInt)

/-- Python true division `a / b`: always a `float`. All division sites in the
source are guarded so the divisor is nonzero. -/
def PyVal.div (a b : PyVal) : PyVal :=
  .float (a.toRat / b.toRat)

/-- The exceptions the module raises, one constructor per `raise` site,
carrying exactly the data interpolated into the Python message:
* `typeErr` — `TypeError(f"Invalid type for '\x7bname\x7d'. Expected int or float, got \x7btype(value).__name__\x7d.")`;
* `negErr` — `ValueError(f"Invalid value for '\x7bname\x7d'. Value cannot be negative (\x7bvalue\x7d).")`;
* `zeroErr` — `ValueError(f"Invalid value for '\x7bname\x7d'. Value cannot be zero (dividing by zero).")`;
* `machineErr` — `ValueError(f"Number of machines must be a positive integer. Got \x7bnumber_of_machines\x7d.")`;
* `totalInventoryErr` — `ValueError("Total inventory (WIP + FGI) cannot be zero when calculating turns.")`. -/
inductive PyError where
  | typeErr (name : String) (typeName : String)
  | negErr (name : String) (value : PyVal)
  | zeroErr (name : String)
  | machineErr (value : PyVal)
  | totalInventoryErr
deriving DecidableEq, Repr

/-- `RangeKind` errors are the `ValueError`s; the only `TypeKind` error is the
validator's `TypeError`. -/
def PyError.isRangeKind : PyError → Bool
  | .typeErr _ _ => false
  | _ => true

/-- The parameter name interpolated into the error's message, when one is:
`machineErr`'s message says "Number of machines" in prose but does not
interpolate the parameter name, and `totalInventoryErr`'s message names no
parameter. -/
def PyError.paramName : PyError → Option String
  | .typeErr n _ => some n
  | .negErr n _ => some n
  | .zeroErr n => some n
  | .machineErr _ => none
  | .totalInventoryErr => none

/-- The offending value interpolated into the error's message, when one is:
`zeroErr` and `totalInventoryErr` interpolate no value. -/
def PyError.carriedValue : PyError → Option PyVal
  | .negErr _ v => some v
  | .machineErr v => some v
  | _ => none

/-- `LittlesLaw._validate_input(value, name, allow_zero=True)`: `TypeError`
for non-numeric input, `ValueError` for negative input, `ValueError` for zero
input when `allow_zero` is false; returns nothing (here `none`) on success. -/
def validate_input (value : PyVal) (name : String) (allow_zero : Bool) :
    Option PyError :=
  if ¬ value.isNumeric = true then some (.typeErr name value.typeName)
  else if value.toRat < 0 then some (.negErr name value)
  else if allow_zero = false ∧ value.toRat = 0 then some (.zeroErr name)
  else none

/-- `LittlesLaw.calculate_wip(throughput, cycle_time)`: WIP = TH * CT. -/
def calculate_wip (throughput cycle_time : PyVal) : Except PyError PyVal :=
  match validate_input throughput "throughput" true with
  | some e => .error e
  | none =>
    match validate_input cycle_time "cycle_time" true with
    | some e => .error e
    | none => .ok (throughput.mul cycle_time)

/-- `LittlesLaw.calculate_cycle_time(wip, throughput)`: CT = WIP / TH. -/
def calculate_cycle_time (wip throughput : PyVal) : Except PyError PyVal :=
  match validate_input wip "wip" true with
  | some e => .error e
  | none =>
    match validate_input throughput "throughput" false with
    | some e => .error e
    | none => .ok (wip.div throughput)

/-- `LittlesLaw.calculate_throughput(wip, cycle_time)`: TH = WIP / CT. -/
def calculate_throughput (wip cycle_time : PyVal) : Except PyError PyVal :=
  match validate_input wip "wip" true with
  | some e => .error e
  | none =>
    match validate_input cycle_time "cycle_time" false with
    | some e => .error e
    | none => .ok (wip.div cycle_time)

/-- The dict returned by `calculate_station_utilization`. -/
structure UtilizationResult where
  station_wip : PyVal
  utilization : PyVal
  utilization_pct : PyVal
deriving DecidableEq, Repr

/-- `LittlesLaw.calculate_station_utilization(station_throughput,
station_cycle_time, number_of_machines)`: validates both quantities, then
requires `isinstance(number_of_machines, int) and number_of_machines > 0`,
then returns the WIP, utilization and percentage (the `utilization > 1.0`
branch in the source is a `pass`). -/
def calculate_station_utilization
    (station_throughput station_cycle_time number_of_machines : PyVal) :
    Except PyError UtilizationResult :=
  match validate_input station_throughput "station_throughput" true with
  | some e => .error e
  | none =>
    match validate_input station_cycle_time "station_cycle_time" true with
    | some e => .error e
    | none =>
      if ¬ number_of_machines.isInstInt = true ∨ number_of_machines.toRat ≤ 0
      then .error (.machineErr number_of_machines)
      else
        let station_wip := station_throughput.mul station_cycle_time
        let utilization := station_wip.div number_of_machines
        .ok ⟨station_wip, utilization, utilization.mul (.int 100)⟩

/-- `LittlesLaw.calculate_inventory_turns(throughput, wip, fgi=0)`: validates
all three, sums `wip + fgi`, raises `ValueError` if the sum is zero, else
returns `throughput / (wip + fgi)`. -/
def calculate_inventory_turns (throughput wip fgi : PyVal) :
    Except PyError PyVal :=
  match validate_input throughput "throughput" true with
  | some e => .error e
  | none =>
    match validate_input wip "wip" true with
    | some e => .error e
    | none =>
      match validate_input fgi "fgi" true with
      | some e => .error e
      | none =>
        let total_inventory := wip.add fgi
        if total_inventory.toRat = 0 then .error .totalInventoryErr
        else .ok (throughput.div total_inventory)

/-- `LittlesLaw.calculate_planned_inventory(throughput, planned_days)`:
FGI = n * TH. -/
def calculate_planned_inventory (throughput planned_days : PyVal) :
    Except PyError PyVal :=
  match validate_input throughput "throughput" true with
  | some e => .error e
  | none =>
    match validate_input planned_days "planned_days" true with
    | some e => .error e
    | none => .ok (planned_days.mul throughput)

/-- `LittlesLaw.financial_cycle_time(wip_value, cost_of_goods_sold)`:
CT = WIP($) / COGS($), with the divisor forbidden to be zero. -/
def financial_cycle_time (wip_value cost_of_goods_sold : PyVal) :
    Except PyError PyVal :=
  match validate_input wip_value "wip_value" true with
  | some e => .error e
  | none =>
    match validate_input cost_of_goods_sold "cost_of_goods_sold" false with
    | some e => .error e
    | none => .ok (wip_value.div cost_of_goods_sold)

/-! ## Basic lemmas about the embedding -/

theorem PyVal.mul_isNumeric (a b : PyVal) : (a.mul b).isNumeric = true := by
  by_cases h : (a.isFloat || b.isFloat) = true <;>
    simp [PyVal.mul, h, PyVal.isNumeric]

theorem PyVal.add_isNumeric (a b : PyVal) : (a.add b).isNumeric = true := by
  by_cases h : (a.isFloat || b.isFloat) = true <;>
    simp [PyVal.add, h, PyVal.isNumeric]

theorem PyVal.toRat_toInt (v : PyVal) (hf : v.isFloat = false) :
    v.toRat = (v.toInt : ℚ) := by
  rcases v with n | q | b | s <;>
    simp_all [PyVal.toRat, PyVal.toInt, PyVal.isFloat]

theorem PyVal.mul_toRat (a b : PyVal) :
    (a.mul b).toRat = a.toRat * b.toRat := by
  by_cases h : (a.isFloat || b.isFloat) = true
  · simp [PyVal.mul, h, PyVal.toRat]
  · have ha : a.isFloat = false := by
      rcases Bool.or_eq_false_iff.mp (Bool.not_eq_true _ |>.mp h) with ⟨h1, _⟩
      exact h1
    have hb : b.isFloat = false := by
      rcases Bool.or_eq_false_iff.mp (Bool.not_eq_true _ |>.mp h) with ⟨_, h2⟩
      exact h2
    have e1 : a.mul b = .int (a.toInt * b.toInt) := by simp [PyVal.mul, h]
    rw [e1, PyVal.toRat_toInt a ha, PyVal.toRat_toInt b hb]
    show ((a.toInt * b.toInt : ℤ) : ℚ) = _
    push_cast
    ring

theorem PyVal.add_toRat (a b : PyVal) :
    (a.add b).toRat = a.toRat + b.toRat := by
  by_cases h : (a.isFloat || b.isFloat) = true
  · simp [PyVal.add, h, PyVal.toRat]
  · have ha : a.isFloat = false := by
      rcases Bool.or_eq_false_iff.mp (Bool.not_eq_true _ |>.mp h) with ⟨h1, _⟩
      exact h1
    have hb : b.isFloat = false := by
      rcases Bool.or_eq_false_iff.mp (Bool.not_eq_true _ |>.mp h) with ⟨_, h2⟩
      exact h2
    have e1 : a.add b = .int (a.toInt + b.toInt) := by simp [PyVal.add, h]
    rw [e1, PyVal.toRat_toInt a ha, PyVal.toRat_toInt b hb]
    show ((a.toInt + b.toInt : ℤ) : ℚ) = _
    push_cast
    ring

theorem PyVal.div_toRat (a b : PyVal) :
    (a.div b).toRat = a.toRat / b.toRat := rfl

theorem validate_input_none_iff (v : PyVal) (n : String) (az : Bool) :
    validate_input v n az = none ↔
      v.isNumeric = true ∧ 0 ≤ v.toRat ∧ (az = true ∨ v.toRat ≠ 0) := by
  unfold validate_input
  by_cases h1 : v.isNumeric = true
  · by_cases h2 : v.toRat < 0
    · simp [h1, h2, not_le.mpr h2]
    · by_cases h3 : az = false ∧ v.toRat = 0
      · rcases h3 with ⟨hz, h0⟩
        subst hz
        simp [h1, h2, h0]
      · have h0 : 0 ≤ v.toRat := not_lt.mp h2
        have hor : az = true ∨ v.toRat ≠ 0 := by
          rcases Decidable.em (v.toRat = 0) with hz | hz
          · cases az with
            | true => exact Or.inl rfl
            | false => exact absurd ⟨rfl, hz⟩ h3
          · exact Or.inr hz
        simp [h1, h2, h3, h0, hor]
  · simp [h1]

theorem validate_input_typeErr (v : PyVal) (n : String) (az : Bool)
    (h : v.isNumeric = false) :
    validate_input v n az = some (.typeErr n v.typeName) := by
  simp [validate_input, h]

theorem validate_input_negErr (v : PyVal) (n : String) (az : Bool)
    (hnum : v.isNumeric = true) (h : v.toRat < 0) :
    validate_input v n az = some (.negErr n v) := by
  simp [validate_input, hnum, h]

theorem validate_input_zeroErr (v : PyVal) (n : String)
    (hnum : v.isNumeric = true) (h : v.toRat = 0) :
    validate_input v n false = some (.zeroErr n) := by
  simp [validate_input, hnum, h]

theorem validate_input_ok (v : PyVal) (n : String) (az : Bool)
    (hnum : v.isNumeric = true) (h0 : 0 ≤ v.toRat)
    (hz : az = true ∨ v.toRat ≠ 0) :
    validate_input v n az = none :=
  (validate_input_none_iff v n az).mpr ⟨hnum, h0, hz⟩

theorem validate_input_cases (v : PyVal) (n : String) (az : Bool) (e : PyError)
    (h : validate_input v n az = some e) :
    e = .typeErr n v.typeName ∨ e = .negErr n v ∨ e = .zeroErr n := by
  unfold validate_input at h
  by_cases h1 : ¬ v.isNumeric = true
  · rw [if_pos h1] at h
    exact Or.inl (Option.some.inj h).symm
  · rw [if_neg h1] at h
    by_cases h2 : v.toRat < 0
    · rw [if_pos h2] at h
      exact Or.inr (Or.inl (Option.some.inj h).symm)
    · rw [if_neg h2] at h
      by_cases h3 : az = false ∧ v.toRat = 0
      · rw [if_pos h3] at h
        exact Or.inr (Or.inr (Option.some.inj h).symm)
      · rw [if_neg h3] at h
        cases h

/-! ## Reduction lemmas for the operations -/

theorem calculate_wip_err1 (t c : PyVal) (e : PyError)
    (h : validate_input t "throughput" true = some e) :
    calculate_wip t c = .error e := by
  unfold calculate_wip
  rw [h]

theorem calculate_wip_err2 (t c : PyVal) (e : PyError)
    (h1 : validate_input t "throughput" true = none)
    (h2 : validate_input c "cycle_time" true = some e) :
    calculate_wip t c = .error e := by
  unfold calculate_wip
  rw [h1, h2]

theorem calculate_wip_eval (t c : PyVal)
    (h1 : validate_input t "throughput" true = none)
    (h2 : validate_input c "cycle_time" true = none) :
    calculate_wip t c = .ok (t.mul c) := by
  unfold calculate_wip
  rw [h1, h2]

theorem calculate_cycle_time_err2 (w t : PyVal) (e : PyError)
    (h1 : validate_input w "wip" true = none)
    (h2 : validate_input t "throughput" false = some e) :
    calculate_cycle_time w t = .error e := by
  unfold calculate_cycle_time
  rw [h1, h2]

theorem calculate_cycle_time_eval (w t : PyVal)
    (h1 : validate_input w "wip" true = none)
    (h2 : validate_input t "throughput" false = none) :
    calculate_cycle_time w t = .ok (w.div t) := by
  unfold calculate_cycle_time
  rw [h1, h2]

theorem calculate_throughput_err2 (w c : PyVal) (e : PyError)
    (h1 : validate_input w "wip" true = none)
    (h2 : validate_input c "cycle_time" false = some e) :
    calculate_throughput w c = .error e := by
  unfold calculate_throughput
  rw [h1, h2]

theorem calculate_station_utilization_eval (st ct m : PyVal)
    (h1 : validate_input st "station_throughput" true = none)
    (h2 : validate_input ct "station_cycle_time" true = none) :
    calculate_station_utilization st ct m =
      if ¬ m.isInstInt = true ∨ m.toRat ≤ 0 then .error (.machineErr m)
      else .ok ⟨st.mul ct, (st.mul ct).div m, ((st.mul ct).div m).mul (.int 100)⟩ := by
  unfold calculate_station_utilization
  rw [h1, h2]

theorem calculate_inventory_turns_err1 (t w f : PyVal) (e : PyError)
    (h : validate_input t "throughput" true = some e) :
    calculate_inventory_turns t w f = .error e := by
  unfold calculate_inventory_turns
  rw [h]

theorem calculate_inventory_turns_err2 (t w f : PyVal) (e : PyError)
    (h1 : validate_input t "throughput" true = none)
    (h2 : validate_input w "wip" true = some e) :
    calculate_inventory_turns t w f = .error e := by
  unfold calculate_inventory_turns
  rw [h1, h2]

theorem calculate_inventory_turns_err3 (t w f : PyVal) (e : PyError)
    (h1 : validate_input t "throughput" true = none)
    (h2 : validate_input w "wip" true = none)
    (h3 : validate_input f "fgi" true = some e) :
    calculate_inventory_turns t w f = .error e := by
  unfold calculate_inventory_turns
  rw [h1, h2, h3]

theorem calculate_inventory_turns_eval (t w f : PyVal)
    (h1 : validate_input t "throughput" true = none)
    (h2 : validate_input w "wip" true = none)
    (h3 : validate_input f "fgi" true = none) :
    calculate_inventory_turns t w f =
      if (w.add f).toRat = 0 then .error .totalInventoryErr
      else .ok (t.div (w.add f)) := by
  unfold calculate_inventory_turns
  rw [h1, h2, h3]

theorem financial_cycle_time_err2 (w c : PyVal) (e : PyError)
    (h1 : validate_input w "wip_value" true = none)
    (h2 : validate_input c "cost_of_goods_sold" false = some e) :
    financial_cycle_time w c = .error e := by
  unfold financial_cycle_time
  rw [h1, h2]

theorem financial_cycle_time_eval (w c : PyVal)
    (h1 : validate_input w "wip_value" true = none)
    (h2 : validate_input c "cost_of_goods_sold" false = none) :
    financial_cycle_time w c = .ok (w.div c) := by
  unfold financial_cycle_time
  rw [h1, h2]

/-! ## Claim theorems -/

/-- C1: for every numeric throughput and cycle time that are non-negative,
calculate_wip succeeds and returns exactly throughput * cycle_time (the
product value, whose rational content is the product of the inputs). -/
theorem calculate_wip_spec (t c : PyVal)
    (ht : t.isNumeric = true) (ht0 : 0 ≤ t.toRat)
    (hc : c.isNumeric = true) (hc0 : 0 ≤ c.toRat) :
    calculate_wip t c = .ok (t.mul c) ∧ (t.mul c).toRat = t.toRat * c.toRat :=
  ⟨calculate_wip_eval t c
      (validate_input_ok t "throughput" true ht ht0 (Or.inl rfl))
      (validate_input_ok c "cycle_time" true hc hc0 (Or.inl rfl)),
    PyVal.mul_toRat t c⟩

/-- Witness for C1 at throughput = 3, cycle_time = 4. -/
theorem calculate_wip_spec_witness :
    calculate_wip (.int 3) (.int 4) = .ok ((PyVal.int 3).mul (.int 4)) ∧
      ((PyVal.int 3).mul (.int 4)).toRat =
        (PyVal.int 3).toRat * (PyVal.int 4).toRat :=
  calculate_wip_spec (.int 3) (.int 4) rfl (by norm_num [PyVal.toRat]) rfl
    (by norm_num [PyVal.toRat])

/-- C2: for every numeric non-negative station throughput and cycle time and
every integer machine count k with 1 ≤ k, calculate_station_utilization
succeeds (never raising an error even when utilization exceeds 1) and
returns the structure with station_wip = TH * CT, utilization = (TH * CT)/k
and utilization_pct = utilization * 100. -/
theorem calculate_station_utilization_spec (st ct : PyVal) (k : ℤ)
    (hst : st.isNumeric = true) (hst0 : 0 ≤ st.toRat)
    (hct : ct.isNumeric = true) (hct0 : 0 ≤ ct.toRat)
    (hk : 1 ≤ k) :
    calculate_station_utilization st ct (.int k) =
      .ok ⟨st.mul ct, (st.mul ct).div (.int k),
        ((st.mul ct).div (.int k)).mul (.int 100)⟩ ∧
    (st.mul ct).toRat = st.toRat * ct.toRat ∧
    ((st.mul ct).div (.int k)).toRat = st.toRat * ct.toRat / (k : ℚ) ∧
    (((st.mul ct).div (.int k)).mul (.int 100)).toRat =
      st.toRat * ct.toRat / (k : ℚ) * 100 := by
  have h1 := validate_input_ok st "station_throughput" true hst hst0 (Or.inl rfl)
  have h2 := validate_input_ok ct "station_cycle_time" true hct hct0 (Or.inl rfl)
  have hkq : (0 : ℚ) < ((k : ℤ) : ℚ) := by
    have : (0 : ℤ) < k := lt_of_lt_of_le Int.zero_lt_one hk
    exact_mod_cast this
  have hguard : ¬ (¬ (PyVal.int k).isInstInt = true ∨ (PyVal.int k).toRat ≤ 0) := by
    push_neg
    exact ⟨rfl, hkq⟩
  refine ⟨?_, PyVal.mul_toRat st ct, ?_, ?_⟩
  · rw [calculate_station_utilization_eval st ct (.int k) h1 h2, if_neg hguard]
  · rw [PyVal.div_toRat, PyVal.mul_toRat st ct]
    rfl
  · rw [PyVal.mul_toRat, PyVal.div_toRat, PyVal.mul_toRat st ct]
    norm_num [PyVal.toRat]

/-- Witness for C2: the spec example calculateStationUtilization(10, 2, 5)
returning station_wip 20, utilization 4.0 and utilization_pct 400.0. -/
theorem calculate_station_utilization_spec_witness :
    calculate_station_utilization (.int 10) (.int 2) (.int 5) =
      .ok ⟨.int 20, .float 4, .float 400⟩ := by
  have h := calculate_station_utilization_spec (.int 10) (.int 2) 5 rfl
    (by norm_num [PyVal.toRat]) rfl (by norm_num [PyVal.toRat]) (by norm_num)
  rw [h.1]
  have e1 : (PyVal.int 10).mul (.int 2) = .int 20 := rfl
  rw [e1]
  have e2 : (PyVal.int 20).div (.int 5) = .float 4 := by
    norm_num [PyVal.div, PyVal.toRat]
  rw [e2]
  have e3 : (PyVal.float 4).mul (.int 100) = .float 400 := by
    norm_num [PyVal.mul, PyVal.isFloat, PyVal.toRat]
  rw [e3]

/-- C3: the shared validator rejects non-numeric arguments with the
TypeError (TypeKind), negative arguments with the negative-value ValueError
(RangeKind), zero arguments with the zero ValueError (RangeKind) when zero
is disallowed, and passes otherwise; the three divisor parameters
(throughput in calculate_cycle_time, cycle_time in calculate_throughput,
cost_of_goods_sold in financial_cycle_time) are validated with zero
disallowed, so a zero divisor makes the operation fail with RangeKind. -/
theorem validator_spec :
    (∀ (v : PyVal) (n : String) (az : Bool),
        validate_input v n az = none ↔
          v.isNumeric = true ∧ 0 ≤ v.toRat ∧ (az = true ∨ v.toRat ≠ 0)) ∧
    (∀ (v : PyVal) (n : String) (az : Bool), v.isNumeric = false →
        validate_input v n az = some (.typeErr n v.typeName) ∧
        (PyError.typeErr n v.typeName).isRangeKind = false) ∧
    (∀ (v : PyVal) (n : String) (az : Bool), v.isNumeric = true →
        v.toRat < 0 →
        validate_input v n az = some (.negErr n v) ∧
        (PyError.negErr n v).isRangeKind = true) ∧
    (∀ (v : PyVal) (n : String), v.isNumeric = true → v.toRat = 0 →
        validate_input v n false = some (.zeroErr n) ∧
        (PyError.zeroErr n).isRangeKind = true) ∧
    (∀ (w t : PyVal), w.isNumeric = true → 0 ≤ w.toRat →
        t.isNumeric = true → t.toRat = 0 →
        calculate_cycle_time w t = .error (.zeroErr "throughput") ∧
        (PyError.zeroErr "throughput").isRangeKind = true) ∧
    (∀ (w c : PyVal), w.isNumeric = true → 0 ≤ w.toRat →
        c.isNumeric = true → c.toRat = 0 →
        calculate_throughput w c = .error (.zeroErr "cycle_time") ∧
        (PyError.zeroErr "cycle_time").isRangeKind = true) ∧
    (∀ (w c : PyVal), w.isNumeric = true → 0 ≤ w.toRat →
        c.isNumeric = true → c.toRat = 0 →
        financial_cycle_time w c = .error (.zeroErr "cost_of_goods_sold") ∧
        (PyError.zeroErr "cost_of_goods_sold").isRangeKind = true) := by
  refine ⟨validate_input_none_iff, ?_, ?_, ?_, ?_, ?_, ?_⟩
  · intro v n az h
    exact ⟨validate_input_typeErr v n az h, rfl⟩
  · intro v n az h1 h2
    exact ⟨validate_input_negErr v n az h1 h2, rfl⟩
  · intro v n h1 h2
    exact ⟨validate_input_zeroErr v n h1 h2, rfl⟩
  · intro w t hw hw0 ht ht0
    exact ⟨calculate_cycle_time_err2 w t _
      (validate_input_ok w "wip" true hw hw0 (Or.inl rfl))
      (validate_input_zeroErr t "throughput" ht ht0), rfl⟩
  · intro w c hw hw0 hc hc0
    exact ⟨calculate_throughput_err2 w c _
      (validate_input_ok w "wip" true hw hw0 (Or.inl rfl))
      (validate_input_zeroErr c "cycle_time" hc hc0), rfl⟩
  · intro w c hw hw0 hc hc0
    exact ⟨financial_cycle_time_err2 w c _
      (validate_input_ok w "wip_value" true hw hw0 (Or.inl rfl))
      (validate_input_zeroErr c "cost_of_goods_sold" hc hc0), rfl⟩

/-- Witness for C3: a string argument is a TypeKind failure, a negative
argument a RangeKind failure, a positive argument passes a zero-forbidden
validation, and a zero divisor fails calculate_cycle_time with RangeKind. -/
theorem validator_spec_witness :
    validate_input (.str "5") "cycle_time" true =
      some (.typeErr "cycle_time" "str") ∧
    validate_input (.int (-1)) "cycle_time" true =
      some (.negErr "cycle_time" (.int (-1))) ∧
    validate_input (.int 2) "cycle_time" false = none ∧
    calculate_cycle_time (.int 5) (.int 0) = .error (.zeroErr "throughput") :=
  ⟨(validator_spec.2.1 (.str "5") "cycle_time" true rfl).1,
    (validator_spec.2.2.1 (.int (-1)) "cycle_time" true rfl
      (by norm_num [PyVal.toRat])).1,
    (validator_spec.1 (.int 2) "cycle_time" false).mpr
      ⟨rfl, by norm_num [PyVal.toRat], Or.inr (by norm_num [PyVal.toRat])⟩,
    (validator_spec.2.2.2.2.1 (.int 5) (.int 0) rfl
      (by norm_num [PyVal.toRat]) rfl (by norm_num [PyVal.toRat])).1⟩

/-- C4: for numeric non-negative throughput, wip and fgi,
calculate_inventory_turns fails with the RangeKind total-inventory error
exactly when wip + fgi = 0, and otherwise returns throughput / (wip + fgi). -/
theorem calculate_inventory_turns_spec (t w f : PyVal)
    (ht : t.isNumeric = true) (ht0 : 0 ≤ t.toRat)
    (hw : w.isNumeric = true) (hw0 : 0 ≤ w.toRat)
    (hf : f.isNumeric = true) (hf0 : 0 ≤ f.toRat) :
    (w.toRat + f.toRat = 0 →
      calculate_inventory_turns t w f = .error .totalInventoryErr ∧
      PyError.totalInventoryErr.isRangeKind = true) ∧
    (w.toRat + f.toRat ≠ 0 →
      calculate_inventory_turns t w f = .ok (t.div (w.add f)) ∧
      (t.div (w.add f)).toRat = t.toRat / (w.toRat + f.toRat)) := by
  have h1 := validate_input_ok t "throughput" true ht ht0 (Or.inl rfl)
  have h2 := validate_input_ok w "wip" true hw hw0 (Or.inl rfl)
  have h3 := validate_input_ok f "fgi" true hf hf0 (Or.inl rfl)
  have heval := calculate_inventory_turns_eval t w f h1 h2 h3
  have hsum : (w.add f).toRat = w.toRat + f.toRat := PyVal.add_toRat w f
  constructor
  · intro hz
    rw [heval, if_pos (hsum.trans hz)]
    exact ⟨rfl, rfl⟩
  · intro hnz
    rw [heval, if_neg (fun hc => hnz (hsum.symm.trans hc))]
    refine ⟨rfl, ?_⟩
    rw [PyVal.div_toRat, hsum]

/-- Witness for C4: the spec examples calculateInventoryTurns(5, 0, 0)
failing with RangeKind and calculateInventoryTurns(5, 3, 2) returning 1.0. -/
theorem calculate_inventory_turns_spec_witness :
    calculate_inventory_turns (.int 5) (.int 0) (.int 0) =
      .error .totalInventoryErr ∧
    calculate_inventory_turns (.int 5) (.int 3) (.int 2) = .ok (.float 1) := by
  have hz := (calculate_inventory_turns_spec (.int 5) (.int 0) (.int 0) rfl
    (by norm_num [PyVal.toRat]) rfl (by norm_num [PyVal.toRat]) rfl
    (by norm_num [PyVal.toRat])).1 (by norm_num [PyVal.toRat])
  have hok := (calculate_inventory_turns_spec (.int 5) (.int 3) (.int 2) rfl
    (by norm_num [PyVal.toRat]) rfl (by norm_num [PyVal.toRat]) rfl
    (by norm_num [PyVal.toRat])).2 (by norm_num [PyVal.toRat])
  refine ⟨hz.1, ?_⟩
  rw [hok.1]
  have e1 : (PyVal.int 3).add (.int 2) = .int 5 := rfl
  rw [e1]
  have e2 : (PyVal.int 5).div (.int 5) = .float 1 := by
    norm_num [PyVal.div, PyVal.toRat]
  rw [e2]

/-- C5: round-trip; for numeric throughput > 0 and cycle time > 0,
calculate_wip succeeds and feeding its result back through
calculate_cycle_time with the same throughput succeeds and recovers the
cycle time exactly (exact rational arithmetic). -/
theorem wip_cycle_time_round_trip (t c : PyVal)
    (ht : t.isNumeric = true) (ht0 : 0 < t.toRat)
    (hc : c.isNumeric = true) (hc0 : 0 < c.toRat) :
    calculate_wip t c = .ok (t.mul c) ∧
    calculate_cycle_time (t.mul c) t = .ok ((t.mul c).div t) ∧
    ((t.mul c).div t).toRat = c.toRat := by
  have h1 := validate_input_ok t "throughput" true ht ht0.le (Or.inl rfl)
  have h2 := validate_input_ok c "cycle_time" true hc hc0.le (Or.inl rfl)
  have hwn : (t.mul c).isNumeric = true := PyVal.mul_isNumeric t c
  have hwr : (t.mul c).toRat = t.toRat * c.toRat := PyVal.mul_toRat t c
  have hw0 : 0 ≤ (t.mul c).toRat := by
    rw [hwr]
    exact mul_nonneg ht0.le hc0.le
  have h3 := validate_input_ok (t.mul c) "wip" true hwn hw0 (Or.inl rfl)
  have h4 := validate_input_ok t "throughput" false ht ht0.le
    (Or.inr (ne_of_gt ht0))
  refine ⟨calculate_wip_eval t c h1 h2,
    calculate_cycle_time_eval (t.mul c) t h3 h4, ?_⟩
  rw [PyVal.div_toRat, hwr]
  exact mul_div_cancel_left₀ c.toRat (ne_of_gt ht0)

/-- Witness for C5 at throughput = 4, cycle_time = 7. -/
theorem wip_cycle_time_round_trip_witness :
    calculate_wip (.int 4) (.int 7) = .ok ((PyVal.int 4).mul (.int 7)) ∧
    calculate_cycle_time ((PyVal.int 4).mul (.int 7)) (.int 4) =
      .ok (((PyVal.int 4).mul (.int 7)).div (.int 4)) ∧
    (((PyVal.int 4).mul (.int 7)).div (.int 4)).toRat = (PyVal.int 7).toRat :=
  wip_cycle_time_round_trip (.int 4) (.int 7) rfl (by norm_num [PyVal.toRat])
    rfl (by norm_num [PyVal.toRat])

/-- C6: calculate_station_utilization fails with the RangeKind machine-count
error whenever number_of_machines is not a Python integer (an int instance,
which includes bool) with value at least 1, for every valid station
throughput and cycle time; in particular it fails at 0 and at 2.5. -/
theorem machine_count_validation (st ct m : PyVal)
    (hst : st.isNumeric = true) (hst0 : 0 ≤ st.toRat)
    (hct : ct.isNumeric = true) (hct0 : 0 ≤ ct.toRat)
    (hm : ¬ (m.isInstInt = true ∧ 1 ≤ m.toRat)) :
    calculate_station_utilization st ct m = .error (.machineErr m) ∧
    (PyError.machineErr m).isRangeKind = true := by
  have h1 := validate_input_ok st "station_throughput" true hst hst0 (Or.inl rfl)
  have h2 := validate_input_ok ct "station_cycle_time" true hct hct0 (Or.inl rfl)
  have hguard : ¬ m.isInstInt = true ∨ m.toRat ≤ 0 := by
    by_cases hi : m.isInstInt = true
    · right
      have hlt : ¬ (1 : ℚ) ≤ m.toRat := fun hle => hm ⟨hi, hle⟩
      rcases m with n | q | b | s
      · have hn : ¬ (1 : ℤ) ≤ n := by
          intro hn
          refine hlt ?_
          show (1 : ℚ) ≤ ((n : ℤ) : ℚ)
          exact_mod_cast hn
        have hn0 : n ≤ 0 := by omega
        show ((n : ℤ) : ℚ) ≤ 0
        exact_mod_cast hn0
      · simp [PyVal.isInstInt] at hi
      · cases b
        · norm_num [PyVal.toRat]
        · exact absurd (by norm_num [PyVal.toRat]) hlt
      · simp [PyVal.isInstInt] at hi
    · exact Or.inl hi
  rw [calculate_station_utilization_eval st ct m h1 h2, if_pos hguard]
  exact ⟨rfl, rfl⟩

/-- Witness for C6: the spec examples with machine count 0 and 2.5. -/
theorem machine_count_validation_witness :
    calculate_station_utilization (.int 10) (.int 2) (.int 0) =
      .error (.machineErr (.int 0)) ∧
    calculate_station_utilization (.int 10) (.int 2) (.float (5 / 2)) =
      .error (.machineErr (.float (5 / 2))) :=
  ⟨(machine_count_validation (.int 10) (.int 2) (.int 0) rfl
      (by norm_num [PyVal.toRat]) rfl (by norm_num [PyVal.toRat])
      (by norm_num [PyVal.isInstInt, PyVal.toRat])).1,
    (machine_count_validation (.int 10) (.int 2) (.float (5 / 2)) rfl
      (by norm_num [PyVal.toRat]) rfl (by norm_num [PyVal.toRat])
      (by norm_num [PyVal.isInstInt])).1⟩

/-- C7 counterexample: calculate_cycle_time(1, 0) raises the zero-divisor
RangeKind error, whose message interpolates the parameter name but not the
offending value, and calculate_inventory_turns(5, 0, 0) raises the
combined-divisor RangeKind error, whose message interpolates neither a
parameter name nor the offending value — so not every RangeKind error
carries the offending value, and not every error carries a parameter name. -/
theorem error_payload_counterexample :
    calculate_cycle_time (.int 1) (.int 0) = .error (.zeroErr "throughput") ∧
    (PyError.zeroErr "throughput").isRangeKind = true ∧
    (PyError.zeroErr "throughput").carriedValue = none ∧
    calculate_inventory_turns (.int 5) (.int 0) (.int 0) =
      .error .totalInventoryErr ∧
    PyError.totalInventoryErr.isRangeKind = true ∧
    PyError.totalInventoryErr.paramName = none ∧
    PyError.totalInventoryErr.carriedValue = none :=
  ⟨rfl, rfl, rfl, rfl, rfl, rfl, rfl⟩

/-- C7 amended: every validator error carries the offending parameter name,
and negative-value RangeKind errors also carry the offending value; but
zero-divisor RangeKind errors carry only the name, the machine-count
RangeKind error carries only the value, and the combined-divisor RangeKind
error of calculate_inventory_turns carries neither. -/
theorem error_payload_amended :
    (∀ (v : PyVal) (n : String) (az : Bool) (e : PyError),
        validate_input v n az = some e → e.paramName = some n) ∧
    (∀ (v : PyVal) (n : String) (az : Bool), v.isNumeric = true →
        v.toRat < 0 →
        validate_input v n az = some (.negErr n v) ∧
        (PyError.negErr n v).carriedValue = some v) ∧
    (∀ (n : String), (PyError.zeroErr n).carriedValue = none) ∧
    (∀ (m : PyVal), (PyError.machineErr m).paramName = none ∧
        (PyError.machineErr m).carriedValue = some m) ∧
    (PyError.totalInventoryErr.paramName = none ∧
        PyError.totalInventoryErr.carriedValue = none) := by
  refine ⟨?_, ?_, fun n => rfl, fun m => ⟨rfl, rfl⟩, rfl, rfl⟩
  · intro v n az e h
    rcases validate_input_cases v n az e h with he | he | he <;> subst he <;> rfl
  · intro v n az h1 h2
    exact ⟨validate_input_negErr v n az h1 h2, rfl⟩

/-- Witness for C7 amended: a concrete type error carries its parameter
name, and a concrete negative input produces the value-carrying error. -/
theorem error_payload_amended_witness :
    (PyError.typeErr "wip" "str").paramName = some "wip" ∧
    validate_input (.int (-1)) "wip" true =
      some (.negErr "wip" (.int (-1))) :=
  ⟨error_payload_amended.1 (.str "s") "wip" true (.typeErr "wip" "str")
      (validate_input_typeErr (.str "s") "wip" true rfl),
    (error_payload_amended.2.1 (.int (-1)) "wip" true rfl
      (by norm_num [PyVal.toRat])).1⟩

/-- C8: in calculate_inventory_turns validation fully precedes computation,
in the order throughput, wip, fgi: any validation failure is returned as-is
with no arithmetic result, and a non-numeric throughput fails with TypeKind
even when wip + fgi = 0. -/
theorem validation_precedes_computation :
    (∀ (t w f : PyVal) (e : PyError),
        validate_input t "throughput" true = some e →
        calculate_inventory_turns t w f = .error e) ∧
    (∀ (t w f : PyVal), t.isNumeric = false →
        calculate_inventory_turns t w f =
          .error (.typeErr "throughput" t.typeName) ∧
        (PyError.typeErr "throughput" t.typeName).isRangeKind = false) ∧
    (∀ (t w f : PyVal) (e : PyError),
        validate_input t "throughput" true = none →
        validate_input w "wip" true = some e →
        calculate_inventory_turns t w f = .error e) ∧
    (∀ (t w f : PyVal) (e : PyError),
        validate_input t "throughput" true = none →
        validate_input w "wip" true = none →
        validate_input f "fgi" true = some e →
        calculate_inventory_turns t w f = .error e) := by
  refine ⟨calculate_inventory_turns_err1, ?_,
    calculate_inventory_turns_err2, calculate_inventory_turns_err3⟩
  intro t w f h
  exact ⟨calculate_inventory_turns_err1 t w f _
    (validate_input_typeErr t "throughput" true h), rfl⟩

/-- Witness for C8: a string throughput fails with TypeKind even though
wip + fgi = 0 would also fail the combined-divisor check. -/
theorem validation_precedes_computation_witness :
    calculate_inventory_turns (.str "x") (.int 0) (.int 0) =
      .error (.typeErr "throughput" "str") :=
  (validation_precedes_computation.2.1 (.str "x") (.int 0) (.int 0) rfl).1

/-- C9: financial_cycle_time returns wip_value / cost_of_goods_sold for
numeric wip_value at least 0 and cost_of_goods_sold greater than 0, and
fails with the zero-divisor RangeKind error when cost_of_goods_sold = 0. -/
theorem financial_cycle_time_spec (w c : PyVal)
    (hw : w.isNumeric = true) (hw0 : 0 ≤ w.toRat)
    (hc : c.isNumeric = true) :
    (0 < c.toRat →
      financial_cycle_time w c = .ok (w.div c) ∧
      (w.div c).toRat = w.toRat / c.toRat) ∧
    (c.toRat = 0 →
      financial_cycle_time w c = .error (.zeroErr "cost_of_goods_sold") ∧
      (PyError.zeroErr "cost_of_goods_sold").isRangeKind = true) := by
  have h1 := validate_input_ok w "wip_value" true hw hw0 (Or.inl rfl)
  constructor
  · intro hpos
    have h2 := validate_input_ok c "cost_of_goods_sold" false hc hpos.le
      (Or.inr (ne_of_gt hpos))
    exact ⟨financial_cycle_time_eval w c h1 h2, PyVal.div_toRat w c⟩
  · intro hz
    exact ⟨financial_cycle_time_err2 w c _ h1
      (validate_input_zeroErr c "cost_of_goods_sold" hc hz), rfl⟩

/-- Witness for C9: the spec examples financialCycleTime(1000, 0) failing
with RangeKind and financialCycleTime(1000, 500) returning 2.0. -/
theorem financial_cycle_time_spec_witness :
    financial_cycle_time (.int 1000) (.int 500) = .ok (.float 2) ∧
    financial_cycle_time (.int 1000) (.int 0) =
      .error (.zeroErr "cost_of_goods_sold") := by
  have hok := (financial_cycle_time_spec (.int 1000) (.int 500) rfl
    (by norm_num [PyVal.toRat]) rfl).1 (by norm_num [PyVal.toRat])
  have hz := (financial_cycle_time_spec (.int 1000) (.int 0) rfl
    (by norm_num [PyVal.toRat]) rfl).2 (by norm_num [PyVal.toRat])
  refine ⟨?_, hz.1⟩
  rw [hok.1]
  have e1 : (PyVal.int 1000).div (.int 500) = .float 2 := by
    norm_num [PyVal.div, PyVal.toRat]
  rw [e1]

/-- C10: Python booleans pass the numeric checks because bool is a subclass
of int: calculate_wip(True, True) returns the int 1, and
calculate_station_utilization(1, 1, True) treats True as a machine count of
1 and succeeds. -/
theorem bool_accepted_as_numeric :
    calculate_wip (.bool true) (.bool true) = .ok (.int 1) ∧
    calculate_station_utilization (.int 1) (.int 1) (.bool true) =
      .ok ⟨.int 1, .float 1, .float 100⟩ := by
  constructor
  · rfl
  · rw [calculate_station_utilization_eval (.int 1) (.int 1) (.bool true) rfl rfl,
      if_neg (by norm_num [PyVal.isInstInt, PyVal.toRat])]
    have e1 : (PyVal.int 1).mul (.int 1) = .int 1 := rfl
    rw [e1]
    have e2 : (PyVal.int 1).div (.bool true) = .float 1 := by
      norm_num [PyVal.div, PyVal.toRat]
    rw [e2]
    have e3 : (PyVal.float 1).mul (.int 100) = .float 100 := by
      norm_num [PyVal.mul, PyVal.isFloat, PyVal.toRat]
    rw [e3]
